import Mathlib

/-!
# Verification of the tenant-dashboard field normalizers and alert classifier

Shallow embedding of the normalization and alert-classification core of
`src/app.py`.  Python strings are Lean `String`s, Python `datetime.date`
values are `Date` triples compared through their proleptic-Gregorian ordinal
(exactly `date.toordinal`), and the `datetime.strptime` format list used by
`calculate_alert_status` is embedded as a directive interpreter that mirrors
CPython `_strptime` regular expressions for the directives `%Y %m %d %B %b`,
literal characters, and whitespace runs.  The float arithmetic of
`normalize_maintenance_amount` is embedded exactly: a binary64 value is
carried as its exact nonnegative rational value (`FVal`, an unnormalized
numerator/denominator pair of naturals), `float(token)` and every `+=`
correctly round to the 53-bit significand grid (round to nearest, ties to
even, subnormals at `2^-1074`), and `str(total)` produces the shortest
correctly rounded digit string that round-trips, formatted positionally or
scientifically at CPython's thresholds.  The finite range is not clipped to
infinity — the overflow behaviour is a separate recorded finding — and an
exact scaled-decimal summation (`DecNum`) serves as the claim-side model
against which the float pipeline is compared.
-/

set_option maxRecDepth 8000

/-- The whitespace set of Python `str.strip` and of the regex class `\s`
(for ASCII inputs): space, tab, newline, carriage return, vertical tab,
form feed. -/
def isPySpace (c : Char) : Bool :=
  c == ' ' || c == '\t' || c == '\n' || c == '\r' || c == '\x0b' || c == '\x0c'

/-- Python `str.strip()`: drop leading and trailing whitespace. -/
def pyStrip (s : String) : String :=
  String.mk (((s.toList.dropWhile isPySpace).reverse.dropWhile isPySpace).reverse)

/-- Python `str.lower()` (ASCII case mapping, which is all the source needs). -/
def pyLower (s : String) : String :=
  String.mk (s.toList.map Char.toLower)

/-- Leading-match test: the first list starts the second. -/
def leadsWith : List Char → List Char → Bool
  | [], _ => true
  | _ :: _, [] => false
  | a :: as, b :: bs => a == b && leadsWith as bs

/-- Substring containment, Python's `needle in hay`. -/
def occursInL (needle : List Char) : List Char → Bool
  | [] => needle = []
  | c :: cs => leadsWith needle (c :: cs) || occursInL needle cs

/-- Substring containment on strings. -/
def occursIn (needle hay : String) : Bool :=
  occursInL needle.toList hay.toList

/-- Value of a digit character. -/
def digitVal (c : Char) : Nat := c.toNat - 48

/-- Python `int` applied to a run of digit characters. -/
def natOfDigits (l : List Char) : Nat :=
  l.foldl (fun n c => 10 * n + digitVal c) 0

/-- Worker for `digitRuns`: `acc` holds the digits of the current run,
reversed. -/
def digitRunsGo : List Char → List Char → List (List Char)
  | [], acc => if acc = [] then [] else [acc.reverse]
  | c :: cs, acc =>
    if c.isDigit then digitRunsGo cs (c :: acc)
    else if acc = [] then digitRunsGo cs []
    else acc.reverse :: digitRunsGo cs []

/-- Embeds `re.findall(r'\d+', s)`: the maximal runs of digits, in order. -/
def digitRuns (l : List Char) : List (List Char) := digitRunsGo l []

/-- Worker for `numTokens`: `acc` is the current token reversed, `afterDot`
records whether the optional decimal point has already been consumed. -/
def numTokensGo : List Char → List Char → Bool → List (List Char)
  | [], acc, _ => if acc = [] then [] else [acc.reverse]
  | c :: cs, acc, afterDot =>
    if acc = [] then
      if c.isDigit then numTokensGo cs [c] false else numTokensGo cs [] false
    else if c.isDigit then numTokensGo cs (c :: acc) afterDot
    else if c == '.' && !afterDot then numTokensGo cs ('.' :: acc) true
    else acc.reverse :: numTokensGo cs [] false

/-- Embeds `re.findall(r'\d+\.?\d*', s)`: greedy decimal-number tokens, in order.
A comma or any other non-digit separates tokens, exactly as in the regex. -/
def numTokens (l : List Char) : List (List Char) := numTokensGo l [] false

/-!
## Field normalizers (`src/app.py` lines 460-624)
-/

/-- Embeds `normalize_period_of_rent` (app.py:460).  Guard `not period_value or
period_value.strip() == ""`, then lower+strip, extract `re.findall(r'\d+')`,
and scale the first number by the unit keyword, testing `year`, then
`month`, then `quarter`, defaulting to months. -/
def normalize_period_of_rent (period_value : String) : String :=
  if period_value = "" ∨ pyStrip period_value = "" then ""
  else
    let period_str := pyStrip (pyLower period_value)
    match digitRuns period_str.toList with
    | [] => ""
    | n :: _ =>
      let num := natOfDigits n
      let months :=
        if occursIn "year" period_str then num * 12
        else if occursIn "month" period_str then num
        else if occursIn "quarter" period_str then num * 3
        else num
      toString months

/-- Embeds `normalize_rent_amount` (app.py:489): first `\d+\.?\d*` token of the
stripped string, returned verbatim. -/
def normalize_rent_amount (rent_value : String) : String :=
  if rent_value = "" ∨ pyStrip rent_value = "" then ""
  else
    match numTokens (pyStrip rent_value).toList with
    | [] => ""
    | t :: _ => String.mk t

/-- A nonnegative decimal number `num / 10 ^ scale`: the exact value of a
`\d+\.?\d*` token, and the accumulator of the claim-side exact
summation. -/
structure DecNum where
  num : Nat
  scale : Nat
deriving DecidableEq

/-- The exact decimal value of a `\d+\.?\d*` token (what `float(token)`
receives before rounding). -/
def decOfToken (t : List Char) : DecNum :=
  let ip := t.takeWhile Char.isDigit
  let rest := t.dropWhile Char.isDigit
  let fp := match rest with
    | _ :: fs => fs
    | [] => []
  ⟨natOfDigits (ip ++ fp), fp.length⟩

/-- Exact addition of decimal numbers over a common power-of-ten
denominator (claim-side model of the float sum). -/
def decAdd (a b : DecNum) : DecNum :=
  let s := max a.scale b.scale
  ⟨a.num * 10 ^ (s - a.scale) + b.num * 10 ^ (s - b.scale), s⟩

/-- Drop factors of ten from the fractional part: `(n, s)` with the value
`n / 10 ^ s` unchanged and `n` no longer divisible by 10 unless `s = 0`. -/
def stripTrailingZeros : Nat → Nat → Nat × Nat
  | n, 0 => (n, 0)
  | n, s + 1 => if n % 10 = 0 then stripTrailingZeros (n / 10) s else (n, s + 1)

/-- Left-pad a digit string with zeros to width `k`. -/
def padLeftZeros (s : String) (k : Nat) : String :=
  String.mk (List.replicate (k - s.length) '0') ++ s

/-- The integer-string-or-decimal-string rendering the spec describes,
applied to an exact decimal: an integer string when the value is integral,
otherwise the decimal expansion with trailing zeros removed (claim-side
model of `str(int(total))` / `str(total)`). -/
def renderDec (x : DecNum) : String :=
  if x.num % 10 ^ x.scale = 0 then toString (x.num / 10 ^ x.scale)
  else
    let p := stripTrailingZeros x.num x.scale
    toString (p.1 / 10 ^ p.2) ++ "." ++ padLeftZeros (toString (p.1 % 10 ^ p.2)) p.2

/-!
### The binary64 pipeline of `normalize_maintenance_amount`

A finite nonnegative IEEE-754 binary64 value is represented by its exact
rational value as an unnormalized fraction of naturals; parsing and each
addition correctly round, and `str` is shortest round-tripping repr. -/

/-- A nonnegative rational `num / den` (unnormalized; `den` is always a
positive power of 2 or 10 by construction).  Used for exact values of
binary64 floats. -/
structure FVal where
  num : Nat
  den : Nat

/-- Floor of the base-2 logarithm of a natural, by fuel recursion (enough
fuel for numbers below `2 ^ 4200`). -/
def natLog2Go : Nat → Nat → Nat
  | 0, _ => 0
  | fuel + 1, n => if n ≤ 1 then 0 else natLog2Go fuel (n / 2) + 1

/-- Floor of the base-2 logarithm. -/
def natLog2 (n : Nat) : Nat := natLog2Go 4200 n

/-- Exact value of a decimal token. -/
def fOfDec (x : DecNum) : FVal := ⟨x.num, 10 ^ x.scale⟩

/-- Exact addition. -/
def fAdd (a b : FVal) : FVal := ⟨a.num * b.den + b.num * a.den, a.den * b.den⟩

/-- Value equality by cross multiplication. -/
def fEq (a b : FVal) : Bool := a.num * b.den == b.num * a.den

/-- Multiply by an integer power of 2. -/
def fMulPow2 (a : FVal) (e : Int) : FVal :=
  if 0 ≤ e then ⟨a.num * 2 ^ e.toNat, a.den⟩ else ⟨a.num, a.den * 2 ^ (-e).toNat⟩

/-- Multiply by an integer power of 10. -/
def fMulPow10 (a : FVal) (e : Int) : FVal :=
  if 0 ≤ e then ⟨a.num * 10 ^ e.toNat, a.den⟩ else ⟨a.num, a.den * 10 ^ (-e).toNat⟩

/-- Round a nonnegative value to the nearest integer, ties to even. -/
def fRoundInt (a : FVal) : Nat :=
  let n := a.num / a.den
  let r := a.num % a.den
  if 2 * r < a.den then n
  else if a.den < 2 * r then n + 1
  else if n % 2 = 0 then n else n + 1

/-- Whether `2 ^ e` is at most the value. -/
def fLePow2 (e : Int) (a : FVal) : Bool :=
  if 0 ≤ e then Nat.ble (a.den * 2 ^ e.toNat) a.num
  else Nat.ble a.den (a.num * 2 ^ (-e).toNat)

/-- Floor of the base-2 logarithm of a positive value (the candidate from
the numerator and denominator bit lengths, corrected by comparison). -/
def fFloorLog2 (a : FVal) : Int :=
  let g : Int := (natLog2 a.num : Int) - (natLog2 a.den : Int)
  if fLePow2 (g + 1) a then g + 1 else if fLePow2 g a then g else g - 1

/-- Correct rounding of a nonnegative rational to the IEEE-754 binary64
grid: round to nearest, ties to even, 53-bit significand, subnormal scale
fixed at `2 ^ -1074`.  The finite range is not clipped, so values CPython
would overflow to `inf` stay on the extended grid (the overflow behaviour
of the source is the separate C4 finding). -/
def roundFloat (a : FVal) : FVal :=
  if a.num == 0 then ⟨0, 1⟩
  else
    let e := fFloorLog2 a
    let e2 := if e < -1022 then -1022 else e
    let scale := e2 - 52
    let m := fRoundInt (fMulPow2 a (-scale))
    if 0 ≤ scale then ⟨m * 2 ^ scale.toNat, 1⟩ else ⟨m, 2 ^ (-scale).toNat⟩

/-- CPython `float(token)`: the exact token value, correctly rounded. -/
def floatOfToken (t : List Char) : FVal := roundFloat (fOfDec (decOfToken t))

/-- The summation loop `total = 0; for num_str in numbers: total +=
float(num_str)` — every binary64 addition correctly rounds the exact sum
of its operands. -/
def floatSumTokens (ts : List (List Char)) : FVal :=
  ts.foldl (fun acc t => roundFloat (fAdd acc (floatOfToken t))) ⟨0, 1⟩

/-- The test `total == int(total)` for a nonnegative float. -/
def fIsInt (a : FVal) : Bool := a.num % a.den == 0

/-- Whether `10 ^ e` is at most the value. -/
def fLePow10 (e : Int) (a : FVal) : Bool :=
  if 0 ≤ e then Nat.ble (a.den * 10 ^ e.toNat) a.num
  else Nat.ble a.den (a.num * 10 ^ (-e).toNat)

/-- Floor of the base-10 logarithm of a positive value. -/
def fFloorLog10 (a : FVal) : Int :=
  let g : Int := ((toString a.num).length : Int) - ((toString a.den).length : Int)
  if fLePow10 (g + 1) a then g + 1 else if fLePow10 g a then g else g - 1

/-- The correctly rounded `prec`-significant-digit decimal of a positive
value: the digit string (length `prec`) and the decimal exponent of its
leading digit. -/
def sigDigits (a : FVal) (prec : Nat) : String × Int :=
  let d := fFloorLog10 a
  let m := fRoundInt (fMulPow10 a ((prec : Int) - 1 - d))
  if m == 10 ^ prec then (toString (10 ^ (prec - 1) : Nat), d + 1)
  else (toString m, d)

/-- The value denoted by a digit string with leading-digit exponent `E`. -/
def sigValue (ds : String) (E : Int) : FVal :=
  fMulPow10 ⟨natOfDigits ds.toList, 1⟩ (E - (ds.length : Int) + 1)

/-- Try precisions `prec, prec+1, ...`: the first correctly rounded digit
string that reads back (under `roundFloat`) to the same float wins; 17
digits always round-trip for binary64, which the fuel reaches. -/
def shortestReprFrom (a : FVal) : Nat → Nat → String × Int
  | prec, 0 => sigDigits a prec
  | prec, fuel + 1 =>
    let c := sigDigits a prec
    if fEq (roundFloat (sigValue c.1 c.2)) a then c
    else shortestReprFrom a (prec + 1) fuel

/-- Shortest correctly rounded round-tripping digits of a positive float. -/
def shortestRepr (a : FVal) : String × Int := shortestReprFrom a 1 16

/-- CPython `repr`/`str` of a positive non-integral finite float, given as
its exact rational value: shortest round-tripping digits, positional
format for leading-digit exponents in `[-4, 16)`, scientific format with a
signed two-digit-minimum exponent otherwise. -/
def pyFloatRepr (a : FVal) : String :=
  let p := shortestRepr a
  let ds := p.1
  let E := p.2
  if 0 ≤ E ∧ E < 16 then
    String.mk (ds.toList.take (E.toNat + 1)) ++ "." ++ String.mk (ds.toList.drop (E.toNat + 1))
  else if -4 ≤ E ∧ E < 0 then
    "0." ++ String.mk (List.replicate ((-E).toNat - 1) '0') ++ ds
  else
    (if ds.length = 1 then ds
     else String.mk (ds.toList.take 1) ++ "." ++ String.mk (ds.toList.drop 1))
      ++ "e" ++ (if E < 0 then "-" else "+")
      ++ (if E.natAbs < 10 then "0" ++ toString E.natAbs else toString E.natAbs)

/-- Embeds `normalize_maintenance_amount` (app.py:507): sum every
`\d+\.?\d*` token of the stripped string with binary64 float addition
(`total += float(num_str)`), then render with `str(int(total))` when
`total == int(total)` and `str(total)` otherwise. -/
def normalize_maintenance_amount (maintenance_value : String) : String :=
  if maintenance_value = "" ∨ pyStrip maintenance_value = "" then ""
  else if numTokens (pyStrip maintenance_value).toList = [] then ""
  else if fIsInt (floatSumTokens (numTokens (pyStrip maintenance_value).toList)) then
    toString ((floatSumTokens (numTokens (pyStrip maintenance_value).toList)).num /
      (floatSumTokens (numTokens (pyStrip maintenance_value).toList)).den)
  else pyFloatRepr (floatSumTokens (numTokens (pyStrip maintenance_value).toList))

/-- Embeds `normalize_rent_escalation` (app.py:535): `re.search(r'(\d+\.?\d*)%?')`
on the stripped string — group 1 is the first number token — suffixed with
`%`; empty when no digits occur. -/
def normalize_rent_escalation (escalation_value : String) : String :=
  if escalation_value = "" ∨ pyStrip escalation_value = "" then ""
  else
    match numTokens (pyStrip escalation_value).toList with
    | [] => ""
    | t :: _ => String.mk t ++ "%"

/-- Embeds `normalize_area_sqft` (app.py:554): first `\d+` run of the stripped
string. -/
def normalize_area_sqft (area_value : String) : String :=
  if area_value = "" ∨ pyStrip area_value = "" then ""
  else
    match digitRuns (pyStrip area_value).toList with
    | [] => ""
    | n :: _ => String.mk n

/-- Embeds `normalize_floor` (app.py:570): ordered synonym table over the
stripped-and-lowered input, falling back to the stripped original. -/
def normalize_floor (floor_value : String) : String :=
  if floor_value = "" ∨ pyStrip floor_value = "" then ""
  else
    let fs := pyLower (pyStrip floor_value)
    if occursIn "ground" fs || occursIn "g.f" fs || fs == "gf" || fs == "0" then "Ground Floor"
    else if occursIn "1st" fs || occursIn "first" fs || fs == "1" || fs == "f1" then "1st Floor"
    else if occursIn "2nd" fs || occursIn "second" fs || fs == "2" || fs == "f2" then "2nd Floor"
    else if occursIn "3rd" fs || occursIn "third" fs || fs == "3" || fs == "f3" then "3rd Floor"
    else if occursIn "4th" fs || occursIn "fourth" fs || fs == "4" || fs == "f4" then "4th Floor"
    else if occursIn "5th" fs || occursIn "fifth" fs || fs == "5" || fs == "f5" then "5th Floor"
    else pyStrip floor_value

/-- Embeds `normalize_building` (app.py:594): substring table over the
stripped-and-lowered input, falling back to the stripped original. -/
def normalize_building (building_value : String) : String :=
  if building_value = "" ∨ pyStrip building_value = "" then ""
  else
    let bs := pyLower (pyStrip building_value)
    if occursIn "jp classic" bs || occursIn "jp-classic" bs then "JP Classic"
    else if occursIn "silver software" bs || occursIn "silver-software" bs then "Silver Software"
    else pyStrip building_value

/-!
## Dynamic-typing model for the first guard of the normalizers

`normalize_period_of_rent` evaluates `period_value.strip()` on the raw
argument, whereas the other normalizers evaluate `str(value).strip()`.
To settle what happens on Python non-string arguments, the relevant Python
values are reified. -/

/-- The Python values the record dictionaries can carry into a normalizer. -/
inductive PyVal
  | str (s : String)
  | int (n : Int)
  | bool (b : Bool)
  | none
deriving DecidableEq

/-- Python truthiness. -/
def PyVal.truthy : PyVal → Bool
  | .str s => !(s == "")
  | .int n => !(n == 0)
  | .bool b => b
  | .none => false

/-- Python `str()`. -/
def pyStr : PyVal → String
  | .str s => s
  | .int n => toString n
  | .bool b => if b then "True" else "False"
  | .none => "None"

/-- Behaviour of `normalize_period_of_rent` on an arbitrary Python value: the guard
`not period_value or period_value.strip() == ""` short-circuits on falsy
values, and otherwise calls `.strip()` on the raw value, which raises
`AttributeError` unless the value is a string (app.py:462). -/
def normalize_period_of_rent_dyn (v : PyVal) : Except String String :=
  if !v.truthy then .ok ""
  else
    match v with
    | .str s => .ok (normalize_period_of_rent s)
    | _ => .error "AttributeError"

/-- Behaviour of `normalize_rent_amount` on an arbitrary Python value: its guard and
body only ever use `str(rent_value)` (app.py:491), so no exception. -/
def normalize_rent_amount_dyn (v : PyVal) : String :=
  if !v.truthy then ""
  else normalize_rent_amount (pyStr v)

/-!
## Date model and the classifier (`src/app.py` lines 626-687)
-/

/-- A calendar date, as in Python `datetime.date`. -/
structure Date where
  year : Nat
  month : Nat
  day : Nat
deriving DecidableEq

/-- Gregorian leap-year test, as in `calendar.isleap`. -/
def isLeapYear (y : Nat) : Bool :=
  (y % 4 == 0 && y % 100 != 0) || y % 400 == 0

/-- Length of a month. -/
def daysInMonth (y m : Nat) : Nat :=
  if m == 2 then (if isLeapYear y then 29 else 28)
  else if m == 4 || m == 6 || m == 9 || m == 11 then 30
  else 31

/-- Days in year `y` strictly before month `m`. -/
def daysBeforeMonth (y m : Nat) : Nat :=
  (match m with
   | 1 => 0 | 2 => 31 | 3 => 59 | 4 => 90 | 5 => 120 | 6 => 151 | 7 => 181
   | 8 => 212 | 9 => 243 | 10 => 273 | 11 => 304 | _ => 334)
  + (if 3 ≤ m && isLeapYear y then 1 else 0)

/-- Python `date.toordinal()`: day 1 is 0001-01-01 of the proleptic
Gregorian calendar.  Python date comparison and `timedelta(days = n)`
arithmetic are exactly ordinal comparison and ordinal shifts. -/
def Date.toOrdinal (d : Date) : Nat :=
  let py := d.year - 1
  365 * py + py / 4 - py / 100 + py / 400 + daysBeforeMonth d.year d.month + d.day

/-- The bounds check performed by the `datetime.date` constructor after a
successful `strptime` regex match (`MINYEAR = 1`; regexes already force
`1 ≤ month ≤ 12` and `1 ≤ day ≤ 31`). -/
def validDate (y m d : Nat) : Bool :=
  1 ≤ y && 1 ≤ m && m ≤ 12 && 1 ≤ d && d ≤ daysInMonth y m

/-- One `strptime` format directive. -/
inductive Dir
  | yr | mon | day | monthFull | monthAbbr | lit (c : Char) | ws
deriving DecidableEq

/-- CPython `_strptime` regex for `%Y`: `\d\d\d\d`, exactly four digits. -/
def matchYear : List Char → Option (Nat × List Char)
  | a :: b :: c :: d :: rest =>
    if a.isDigit && b.isDigit && c.isDigit && d.isDigit then
      some (natOfDigits [a, b, c, d], rest)
    else none
  | _ => none

/-- CPython `_strptime` regex for `%m`: `1[0-2]|0[1-9]|[1-9]`, the
alternatives tried in that order. -/
def matchMonthNum : List Char → Option (Nat × List Char)
  | [] => none
  | c1 :: rest1 =>
    match rest1 with
    | c2 :: rest2 =>
      if c1 == '1' && (c2 == '0' || c2 == '1' || c2 == '2') then
        some (10 + digitVal c2, rest2)
      else if c1 == '0' && c2.isDigit && c2 != '0' then some (digitVal c2, rest2)
      else if c1.isDigit && c1 != '0' then some (digitVal c1, rest1)
      else none
    | [] => if c1.isDigit && c1 != '0' then some (digitVal c1, []) else none

/-- CPython `_strptime` regex for `%d`: `3[01]|[12]\d|0[1-9]|[1-9]`. -/
def matchDay : List Char → Option (Nat × List Char)
  | [] => none
  | c1 :: rest1 =>
    match rest1 with
    | c2 :: rest2 =>
      if c1 == '3' && (c2 == '0' || c2 == '1') then some (30 + digitVal c2, rest2)
      else if (c1 == '1' || c1 == '2') && c2.isDigit then
        some (10 * digitVal c1 + digitVal c2, rest2)
      else if c1 == '0' && c2.isDigit && c2 != '0' then some (digitVal c2, rest2)
      else if c1.isDigit && c1 != '0' then some (digitVal c1, rest1)
      else none
    | [] => if c1.isDigit && c1 != '0' then some (digitVal c1, []) else none

/-- Month numbers and lowered full names for `%B`. -/
def monthFullNames : List (Nat × List Char) :=
  [(1, "january".toList), (2, "february".toList), (3, "march".toList),
   (4, "april".toList), (5, "may".toList), (6, "june".toList),
   (7, "july".toList), (8, "august".toList), (9, "september".toList),
   (10, "october".toList), (11, "november".toList), (12, "december".toList)]

/-- Month numbers and lowered abbreviated names for `%b`. -/
def monthAbbrNames : List (Nat × List Char) :=
  [(1, "jan".toList), (2, "feb".toList), (3, "mar".toList), (4, "apr".toList),
   (5, "may".toList), (6, "jun".toList), (7, "jul".toList), (8, "aug".toList),
   (9, "sep".toList), (10, "oct".toList), (11, "nov".toList), (12, "dec".toList)]

/-- Case-insensitive month-name alternation (`strptime` compiles its format
regexes with `re.IGNORECASE`; no month name is a prefix of another, so the
alternation order is immaterial). -/
def matchMonthName (names : List (Nat × List Char)) (s : List Char) :
    Option (Nat × List Char) :=
  names.findSome? fun p =>
    if (s.take p.2.length).map Char.toLower == p.2 then some (p.1, s.drop p.2.length)
    else none

/-- Run a format against an input, with the `strptime` defaults
`year = 1900, month = 1, day = 1` (every format in the source sets all
three).  `_strptime` anchors the regex at the start, rejects unconverted
trailing data, turns a whitespace run in the format into `\s+`, and the
`date` constructor then validates the fields. -/
def runDirs : List Dir → List Char → Nat → Nat → Nat → Option Date
  | [], s, y, m, d =>
    if s.isEmpty && validDate y m d then some ⟨y, m, d⟩ else none
  | dir :: dirs, s, y, m, d =>
    match dir with
    | .yr => match matchYear s with
      | some p => runDirs dirs p.2 p.1 m d
      | Option.none => none
    | .mon => match matchMonthNum s with
      | some p => runDirs dirs p.2 y p.1 d
      | Option.none => none
    | .day => match matchDay s with
      | some p => runDirs dirs p.2 y m p.1
      | Option.none => none
    | .monthFull => match matchMonthName monthFullNames s with
      | some p => runDirs dirs p.2 y p.1 d
      | Option.none => none
    | .monthAbbr => match matchMonthName monthAbbrNames s with
      | some p => runDirs dirs p.2 y p.1 d
      | Option.none => none
    | .lit c => match s with
      | x :: rest => if x == c then runDirs dirs rest y m d else none
      | [] => none
    | .ws => match s with
      | x :: rest =>
        if isPySpace x then runDirs dirs (rest.dropWhile isPySpace) y m d else none
      | [] => none

/-- The ordered format list of `calculate_alert_status` (app.py:637):
`%Y-%m-%d, %d/%m/%Y, %m/%d/%Y, %d-%m-%Y, %Y/%m/%d, %m-%d-%Y, %d.%m.%Y,
%Y.%m.%d, %B %d, %Y, %d %B %Y, %b %d, %Y, %d %b %Y`. -/
def dateFormats : List (List Dir) :=
  [[.yr, .lit '-', .mon, .lit '-', .day],
   [.day, .lit '/', .mon, .lit '/', .yr],
   [.mon, .lit '/', .day, .lit '/', .yr],
   [.day, .lit '-', .mon, .lit '-', .yr],
   [.yr, .lit '/', .mon, .lit '/', .day],
   [.mon, .lit '-', .day, .lit '-', .yr],
   [.day, .lit '.', .mon, .lit '.', .yr],
   [.yr, .lit '.', .mon, .lit '.', .day],
   [.monthFull, .ws, .day, .lit ',', .ws, .yr],
   [.day, .ws, .monthFull, .ws, .yr],
   [.monthAbbr, .ws, .day, .lit ',', .ws, .yr],
   [.day, .ws, .monthAbbr, .ws, .yr]]

/-- The parsing loop of `calculate_alert_status`: try each format in turn,
first success wins (a `ValueError` from either the regex or the date
constructor just moves to the next format). -/
def parseDateFormats (s : String) : Option Date :=
  dateFormats.findSome? fun f => runDirs f s.toList 1900 1 1

/-- The threshold computation and interval chain of `calculate_alert_status`
(app.py:660-684) for an already-parsed expiry date.  `expiry_date -
timedelta(days = 90)` raises `OverflowError` when the shifted ordinal
falls before `date.min` (ordinal 1); the surrounding `except Exception`
then returns the empty tier, whence the ordinal guard. -/
def classifyParsed (T today : Date) : String :=
  if T.toOrdinal < 91 then ""
  else
    let t : Int := today.toOrdinal
    let e : Int := T.toOrdinal
    if t < e - 90 then ""
    else if e - 90 ≤ t ∧ t < e - 60 then "three_months"
    else if e - 60 ≤ t ∧ t < e - 30 then "two_months"
    else if e - 30 ≤ t ∧ t < e then "one_month"
    else if e ≤ t then "expired"
    else ""

/-- Embeds `calculate_alert_status` (app.py:626).  The Python function reads
`today = datetime.today().date()` from the system clock inside its body;
the clock reading is passed here explicitly, as required for a pure
shallow embedding of that effect. -/
def calculate_alert_status (agreement_expiry_date : String) (today : Date) : String :=
  if agreement_expiry_date = "" ∨ pyStrip agreement_expiry_date = "" then ""
  else
    match parseDateFormats (pyStrip agreement_expiry_date) with
    | Option.none => ""
    | some T => classifyParsed T today

/-!
## Claim-side definitions

The period-of-rent multiplier rule in the order the specification lists
the unit keywords, and the exact-decimal maintenance summation the
specification describes, for comparison with the source definitions. -/

/-- Modelled from the spec wording of the period normalizer: multiply by 12
when the text contains `year`, else by 3 when it contains `quarter`, else
by 1 (`month` or no unit keyword).  The source instead tests `month`
before `quarter`. -/
def period_months_claimed (s : String) : String :=
  if pyStrip s = "" then ""
  else
    let t := pyStrip (pyLower s)
    match digitRuns t.toList with
    | [] => ""
    | n :: _ =>
      toString (natOfDigits n *
        (if occursIn "year" t then 12
         else if occursIn "quarter" t then 3
         else 1))

/-- Modelled from the claim wording of the maintenance normalizer: sum all
decimal numbers occurring in the input exactly and render the sum as an
integer string when it has no fractional part and as a decimal string
otherwise, empty when no number occurs.  The source instead sums binary64
floats and renders with `str`. -/
def maintenance_sum_claimed (s : String) : String :=
  if pyStrip s = "" then ""
  else if numTokens (pyStrip s).toList = [] then ""
  else renderDec (((numTokens (pyStrip s).toList).map decOfToken).foldl decAdd ⟨0, 0⟩)

/-!
## Helper lemmas
-/

theorem guard_strip {s : String} (hg : s = "" ∨ pyStrip s = "") : pyStrip s = "" := by
  rcases hg with h | h
  · rw [h]; rfl
  · exact h

theorem pyStrip_eq_empty {s : String} (h : pyStrip s = "") :
    ∀ c ∈ s.toList, isPySpace c := by
  intro c hc
  have hL : (((s.toList.dropWhile isPySpace).reverse.dropWhile isPySpace).reverse) = [] := by
    have h2 := congrArg String.data h
    simpa [pyStrip] using h2
  rw [List.reverse_eq_nil_iff] at hL
  have hdrop : ∀ x ∈ s.toList.dropWhile isPySpace, isPySpace x := by
    intro x hx
    have := (List.dropWhile_eq_nil_iff.mp hL) x (by
      rw [List.mem_reverse]
      exact hx)
    exact this
  have hsplit := List.takeWhile_append_dropWhile (p := isPySpace) (l := s.toList)
  rw [← hsplit] at hc
  rcases List.mem_append.mp hc with h1 | h1
  · exact List.mem_takeWhile_imp h1
  · exact hdrop c h1

theorem toLower_of_space {c : Char} (h : isPySpace c = true) : Char.toLower c = c := by
  simp only [isPySpace, Bool.or_eq_true, beq_iff_eq] at h
  rcases h with ((((h | h) | h) | h) | h) | h <;> subst h <;> decide

theorem map_toLower_of_space :
    ∀ l : List Char, (∀ c ∈ l, isPySpace c) → l.map Char.toLower = l := by
  intro l
  induction l with
  | nil => intro _; rfl
  | cons a t ih =>
    intro hl
    simp only [List.map_cons]
    rw [toLower_of_space (hl a (by simp)), ih (fun c hc => hl c (by simp [hc]))]

theorem pyLower_of_all_space {s : String} (h : ∀ c ∈ s.toList, isPySpace c) :
    pyLower s = s := by
  obtain ⟨data⟩ := s
  simp only [pyLower]
  congr 1
  exact map_toLower_of_space data h

theorem strip_lower_of_strip_empty {s : String} (h : pyStrip s = "") :
    pyStrip (pyLower s) = "" := by
  rw [pyLower_of_all_space (pyStrip_eq_empty h), h]

theorem classifyParsed_cases (T today : Date) (hT : 90 < T.toOrdinal) :
    ((today.toOrdinal : Int) < (T.toOrdinal : Int) - 90 →
      classifyParsed T today = "") ∧
    ((T.toOrdinal : Int) - 90 ≤ (today.toOrdinal : Int) ∧
        (today.toOrdinal : Int) < (T.toOrdinal : Int) - 60 →
      classifyParsed T today = "three_months") ∧
    ((T.toOrdinal : Int) - 60 ≤ (today.toOrdinal : Int) ∧
        (today.toOrdinal : Int) < (T.toOrdinal : Int) - 30 →
      classifyParsed T today = "two_months") ∧
    ((T.toOrdinal : Int) - 30 ≤ (today.toOrdinal : Int) ∧
        (today.toOrdinal : Int) < (T.toOrdinal : Int) →
      classifyParsed T today = "one_month") ∧
    ((T.toOrdinal : Int) ≤ (today.toOrdinal : Int) →
      classifyParsed T today = "expired") := by
  simp only [classifyParsed]
  have h91 : ¬ (T.toOrdinal < 91) := by omega
  rw [if_neg h91]
  refine ⟨?_, ?_, ?_, ?_, ?_⟩ <;> intro h <;> split_ifs <;> first | rfl | omega

theorem classifyParsed_mem (T today : Date) :
    classifyParsed T today ∈ ["", "three_months", "two_months", "one_month", "expired"] := by
  simp only [classifyParsed]
  split_ifs <;> simp

/-!
## Claim theorems
-/

/-- C1 (amended): for every expiry string that parses to a date `T` whose
ordinal exceeds 90 — for earlier `T` the computation of `T - 90d` underflows
`date.min`, the `OverflowError` is swallowed and the empty tier is returned —
`calculate_alert_status` classifies `today` into the five left-closed
half-open intervals with thresholds exactly 90, 60 and 30 calendar days
before `T`; in particular with `T = 2025-06-01`, 2025-03-03 gives
`three_months`, 2025-03-02 gives the empty tier, 2025-05-31 gives
`one_month` and 2025-06-01 gives `expired`. -/
theorem calculate_alert_status_intervals (s : String) (T today : Date)
    (hp : parseDateFormats (pyStrip s) = some T) (hT : 90 < T.toOrdinal) :
    ((today.toOrdinal : Int) < (T.toOrdinal : Int) - 90 →
      calculate_alert_status s today = "") ∧
    ((T.toOrdinal : Int) - 90 ≤ (today.toOrdinal : Int) ∧
        (today.toOrdinal : Int) < (T.toOrdinal : Int) - 60 →
      calculate_alert_status s today = "three_months") ∧
    ((T.toOrdinal : Int) - 60 ≤ (today.toOrdinal : Int) ∧
        (today.toOrdinal : Int) < (T.toOrdinal : Int) - 30 →
      calculate_alert_status s today = "two_months") ∧
    ((T.toOrdinal : Int) - 30 ≤ (today.toOrdinal : Int) ∧
        (today.toOrdinal : Int) < (T.toOrdinal : Int) →
      calculate_alert_status s today = "one_month") ∧
    ((T.toOrdinal : Int) ≤ (today.toOrdinal : Int) →
      calculate_alert_status s today = "expired") ∧
    calculate_alert_status "2025-06-01" ⟨2025, 3, 3⟩ = "three_months" ∧
    calculate_alert_status "2025-06-01" ⟨2025, 3, 2⟩ = "" ∧
    calculate_alert_status "2025-06-01" ⟨2025, 5, 31⟩ = "one_month" ∧
    calculate_alert_status "2025-06-01" ⟨2025, 6, 1⟩ = "expired" := by
  have hne : ¬ (s = "" ∨ pyStrip s = "") := by
    intro hg
    have h0 : pyStrip s = "" := guard_strip hg
    have hnil : parseDateFormats "" = Option.none := rfl
    rw [h0, hnil] at hp
    exact Option.noConfusion hp
  have hc : calculate_alert_status s today = classifyParsed T today := by
    unfold calculate_alert_status
    rw [if_neg hne, hp]
  obtain ⟨h1, h2, h3, h4, h5⟩ := classifyParsed_cases T today hT
  rw [hc]
  exact ⟨h1, h2, h3, h4, h5, by decide, by decide, by decide, by decide⟩

/-- Witness for C1 at `s = "2025-06-01"`, `T = 2025-06-01`,
`today = 2025-03-03` (exactly `T - 90d`). -/
theorem calculate_alert_status_intervals_witness :
    parseDateFormats (pyStrip "2025-06-01") = some ⟨2025, 6, 1⟩ ∧
    90 < Date.toOrdinal ⟨2025, 6, 1⟩ ∧
    calculate_alert_status "2025-06-01" ⟨2025, 3, 3⟩ = "three_months" := by
  refine ⟨by decide, by decide, ?_⟩
  exact (calculate_alert_status_intervals "2025-06-01" ⟨2025, 6, 1⟩ ⟨2025, 3, 3⟩
    (by decide) (by decide)).2.1 (by decide)

/-- C1 counterexample to the claim as stated: `"0001-01-30"` parses to
`T = 0001-01-30` and `today = 2025-06-01` satisfies `today ≥ T`, yet the
result is the empty tier, not `"expired"`: `T - timedelta(days=90)` raises
`OverflowError` (before `date.min`), which the surrounding
`except Exception` turns into the empty tier. -/
theorem calculate_alert_status_intervals_cex :
    parseDateFormats (pyStrip "0001-01-30") = some ⟨1, 1, 30⟩ ∧
    Date.toOrdinal ⟨1, 1, 30⟩ ≤ Date.toOrdinal ⟨2025, 6, 1⟩ ∧
    calculate_alert_status "0001-01-30" ⟨2025, 6, 1⟩ ≠ "expired" := by decide

/-- C2: `calculate_alert_status` always returns one of the five tier
strings, and over the date ordinals the five interval conditions are
exhaustive (so the trailing catch-all `else` after the five rules can never
be the branch taken) and pairwise mutually exclusive. -/
theorem calculate_alert_status_partition :
    (∀ (s : String) (today : Date),
      calculate_alert_status s today ∈
        ["", "three_months", "two_months", "one_month", "expired"]) ∧
    (∀ T today : Date,
      ((today.toOrdinal : Int) < (T.toOrdinal : Int) - 90 ∨
       ((T.toOrdinal : Int) - 90 ≤ (today.toOrdinal : Int) ∧
         (today.toOrdinal : Int) < (T.toOrdinal : Int) - 60) ∨
       ((T.toOrdinal : Int) - 60 ≤ (today.toOrdinal : Int) ∧
         (today.toOrdinal : Int) < (T.toOrdinal : Int) - 30) ∨
       ((T.toOrdinal : Int) - 30 ≤ (today.toOrdinal : Int) ∧
         (today.toOrdinal : Int) < (T.toOrdinal : Int)) ∨
       (T.toOrdinal : Int) ≤ (today.toOrdinal : Int)) ∧
      ¬ ((today.toOrdinal : Int) < (T.toOrdinal : Int) - 90 ∧
         (T.toOrdinal : Int) - 90 ≤ (today.toOrdinal : Int)) ∧
      ¬ ((today.toOrdinal : Int) < (T.toOrdinal : Int) - 60 ∧
         (T.toOrdinal : Int) - 60 ≤ (today.toOrdinal : Int)) ∧
      ¬ ((today.toOrdinal : Int) < (T.toOrdinal : Int) - 30 ∧
         (T.toOrdinal : Int) - 30 ≤ (today.toOrdinal : Int)) ∧
      ¬ ((today.toOrdinal : Int) < (T.toOrdinal : Int) ∧
         (T.toOrdinal : Int) ≤ (today.toOrdinal : Int))) := by
  constructor
  · intro s today
    unfold calculate_alert_status
    split
    · simp
    · split
      · simp
      · exact classifyParsed_mem _ _
  · intro T today
    refine ⟨by omega, by omega, by omega, by omega, by omega⟩

/-- Witness for C2 at a concrete expiry string and date. -/
theorem calculate_alert_status_partition_witness :
    calculate_alert_status "2025-06-01" ⟨2025, 6, 1⟩ ∈
      ["", "three_months", "two_months", "one_month", "expired"] :=
  calculate_alert_status_partition.1 "2025-06-01" ⟨2025, 6, 1⟩

/-- C3 (supporting evaluation): in the embedding the clock reading is an
explicit argument, and the result genuinely varies with it — the Python
function instead reads `datetime.today()` inside its body and offers no
parameter through which a test could inject the date. -/
theorem calculate_alert_status_clock_dependence :
    calculate_alert_status "2025-06-01" ⟨2025, 4, 15⟩ = "two_months" ∧
    calculate_alert_status "2025-06-01" ⟨2025, 1, 1⟩ = "" := by decide

/-- C4 (supporting evaluation): the classifier maps the empty string, a
whitespace-only string and an unparseable string to the empty tier, and
`normalize_period_of_rent` maps digit-free input to the empty string —
the exception the claim rules out lives in `normalize_maintenance_amount`
on float-overflow input, whose overflow to infinity lies outside this
finite-value float model. -/
theorem calculate_alert_status_swallows_bad_input :
    calculate_alert_status "" ⟨2025, 6, 1⟩ = "" ∧
    calculate_alert_status "   " ⟨2025, 6, 1⟩ = "" ∧
    calculate_alert_status "not a date" ⟨2025, 6, 1⟩ = "" ∧
    normalize_period_of_rent "no digits" = "" ∧
    normalize_rent_amount " " = "" := by decide

/-- C5 (supporting evaluation): `normalize_maintenance_amount` is not
idempotent.  On `"0.00001"` the float sum is the binary64 neighbour of
`10 ^ -5` and `str` renders it scientifically as `1e-05`; feeding that
back, the token regex reads the digits `1` and `05` and sums them to `6`,
so applying the normalizer twice differs from applying it once. -/
theorem normalize_maintenance_not_idempotent :
    normalize_maintenance_amount "0.00001" = "1e-05" ∧
    normalize_maintenance_amount "1e-05" = "6" ∧
    normalize_maintenance_amount (normalize_maintenance_amount "0.00001") ≠
      normalize_maintenance_amount "0.00001" := by decide

/-- C6 counterexample: on `"1 month quarter"` — a string containing both
unit keywords — the source multiplies by 1 (it tests `month` before
`quarter`), while the claim's rule order multiplies by 3. -/
theorem normalize_period_claim_cex :
    normalize_period_of_rent "1 month quarter" = "1" ∧
    period_months_claimed "1 month quarter" = "3" ∧
    normalize_period_of_rent "1 month quarter" ≠
      period_months_claimed "1 month quarter" := by decide

/-- C6 (amended): `normalize_period_of_rent` extracts the first digit run
of the lowered, stripped input and multiplies it by 12 when the text
contains `year`, else by 1 when it contains `month`, else by 3 when it
contains `quarter`, else by 1; it returns the empty string when no digits
occur; `"2 years" ↦ "24"`, `"6 months" ↦ "6"`, `"18" ↦ "18"`. -/
theorem normalize_period_to_months (s : String) :
    (digitRuns (pyStrip (pyLower s)).toList = [] →
      normalize_period_of_rent s = "") ∧
    (∀ n ns, digitRuns (pyStrip (pyLower s)).toList = n :: ns →
      normalize_period_of_rent s =
        toString (natOfDigits n *
          (if occursIn "year" (pyStrip (pyLower s)) then 12
           else if occursIn "month" (pyStrip (pyLower s)) then 1
           else if occursIn "quarter" (pyStrip (pyLower s)) then 3
           else 1))) ∧
    normalize_period_of_rent "2 years" = "24" ∧
    normalize_period_of_rent "6 months" = "6" ∧
    normalize_period_of_rent "18" = "18" := by
  refine ⟨?_, ?_, by decide, by decide, by decide⟩
  · intro h
    by_cases hg : s = "" ∨ pyStrip s = ""
    · simp [normalize_period_of_rent, hg]
    · have h2 : digitRuns (pyStrip (pyLower s)).data = [] := h
      simp [normalize_period_of_rent, hg, h2]
  · intro n ns h
    have hg : ¬ (s = "" ∨ pyStrip s = "") := by
      intro hg
      have h0 : pyStrip (pyLower s) = "" := strip_lower_of_strip_empty (guard_strip hg)
      rw [h0] at h
      exact List.noConfusion h
    simp only [normalize_period_of_rent, if_neg hg, h]
    split_ifs <;> simp [Nat.mul_comm]

/-- Witness for C6 at `s = "2 years"`. -/
theorem normalize_period_to_months_witness :
    normalize_period_of_rent "2 years" =
      toString (natOfDigits ['2'] *
        (if occursIn "year" (pyStrip (pyLower "2 years")) then 12
         else if occursIn "month" (pyStrip (pyLower "2 years")) then 1
         else if occursIn "quarter" (pyStrip (pyLower "2 years")) then 3
         else 1)) :=
  (normalize_period_to_months "2 years").2.1 ['2'] [] (by decide)

/-- C7 counterexample to the claim as stated: on `"0.1 0.2"` the source
returns `"0.30000000000000004"` — neither binary64 neighbour of 0.1 or 0.2
is exact, and the rounded float sum renders with seventeen digits — while
the exact sum of the decimal numbers occurring in the input is 0.3, whose
decimal rendering is `"0.3"`. -/
theorem normalize_maintenance_claim_cex :
    normalize_maintenance_amount "0.1 0.2" = "0.30000000000000004" ∧
    maintenance_sum_claimed "0.1 0.2" = "0.3" ∧
    normalize_maintenance_amount "0.1 0.2" ≠ maintenance_sum_claimed "0.1 0.2" := by
  decide

/-- C7 (amended): `normalize_maintenance_amount` sums the decimal-number
tokens of its input with binary64 float addition and renders the sum with
Python `str` — the integer string when the sum is integral, the shortest
round-tripping decimal otherwise — returning the empty string when no
number occurs; on every input whose float sum and rendering are exact
(the restriction the counterexample forces), this coincides with the
claim's exact summation and integer-or-decimal rendering, and in
particular `"Rs.11 per sqft + Rs. 2 for canteen"` gives `"13"`. -/
theorem normalize_maintenance_sums (s : String) :
    (numTokens (pyStrip s).toList = [] → normalize_maintenance_amount s = "") ∧
    ((if fIsInt (floatSumTokens (numTokens (pyStrip s).toList)) then
        toString ((floatSumTokens (numTokens (pyStrip s).toList)).num /
          (floatSumTokens (numTokens (pyStrip s).toList)).den)
      else pyFloatRepr (floatSumTokens (numTokens (pyStrip s).toList)))
        = renderDec (((numTokens (pyStrip s).toList).map decOfToken).foldl decAdd ⟨0, 0⟩) →
      normalize_maintenance_amount s = maintenance_sum_claimed s) ∧
    normalize_maintenance_amount "Rs.11 per sqft + Rs. 2 for canteen" = "13" ∧
    normalize_maintenance_amount "Rs 2.5 plus 1.25" = "3.75" ∧
    normalize_maintenance_amount "no numbers" = "" := by
  refine ⟨?_, ?_, by decide, by decide, by decide⟩
  · intro h
    unfold normalize_maintenance_amount
    by_cases hg : s = "" ∨ pyStrip s = ""
    · rw [if_pos hg]
    · rw [if_neg hg, if_pos h]
  · intro hren
    unfold normalize_maintenance_amount maintenance_sum_claimed
    by_cases hg : s = "" ∨ pyStrip s = ""
    · have h0 := guard_strip hg
      rw [if_pos hg, if_pos h0]
    · have hps : ¬ pyStrip s = "" := fun h => hg (Or.inr h)
      rw [if_neg hg, if_neg hps]
      by_cases ht : numTokens (pyStrip s).toList = []
      · rw [if_pos ht, if_pos ht]
      · rw [if_neg ht, if_neg ht]
        exact hren

/-- Witness for C7 at the claimed example, where the float pipeline is
exact and agrees with the exact-decimal model. -/
theorem normalize_maintenance_sums_witness :
    normalize_maintenance_amount "Rs.11 per sqft + Rs. 2 for canteen" =
      maintenance_sum_claimed "Rs.11 per sqft + Rs. 2 for canteen" :=
  (normalize_maintenance_sums "Rs.11 per sqft + Rs. 2 for canteen").2.1 (by decide)

/-- C8: the three renderings `"01/03/2025"` (`%d/%m/%Y`),
`"March 1, 2025"` (`%B %d, %Y`) and `"2025-03-01"` (ISO) of the same
calendar date receive the same alert tier for every `today`: the ordered
format list parses all three to the date 2025-03-01 and the classification
depends only on the parsed date. -/
theorem calculate_alert_status_format_agnostic (today : Date) :
    calculate_alert_status "01/03/2025" today =
      calculate_alert_status "2025-03-01" today ∧
    calculate_alert_status "March 1, 2025" today =
      calculate_alert_status "2025-03-01" today ∧
    parseDateFormats "01/03/2025" = some ⟨2025, 3, 1⟩ ∧
    parseDateFormats "March 1, 2025" = some ⟨2025, 3, 1⟩ ∧
    parseDateFormats "2025-03-01" = some ⟨2025, 3, 1⟩ :=
  ⟨rfl, rfl, by decide, by decide, by decide⟩

/-- C9: `normalize_period_of_rent` calls `.strip()` on its raw argument, so
on truthy non-string Python values (`12`, `True`) it raises
`AttributeError`, while falsy values short-circuit to the empty string and
string values never raise; `normalize_rent_amount`, which coerces with
`str()` first, accepts the same non-string values. -/
theorem normalize_period_strip_dynamic :
    (∀ s : String,
      normalize_period_of_rent_dyn (PyVal.str s) =
        Except.ok (normalize_period_of_rent s)) ∧
    normalize_period_of_rent_dyn (PyVal.int 12) = Except.error "AttributeError" ∧
    normalize_period_of_rent_dyn (PyVal.bool true) = Except.error "AttributeError" ∧
    normalize_period_of_rent_dyn (PyVal.int 0) = Except.ok "" ∧
    normalize_period_of_rent_dyn (PyVal.bool false) = Except.ok "" ∧
    normalize_period_of_rent_dyn PyVal.none = Except.ok "" ∧
    normalize_rent_amount_dyn (PyVal.int 12) = "12" ∧
    normalize_rent_amount_dyn (PyVal.bool true) = "" := by
  refine ⟨?_, rfl, rfl, rfl, rfl, rfl, rfl, rfl⟩
  intro s
  by_cases h : s = ""
  · subst h; rfl
  · simp [normalize_period_of_rent_dyn, PyVal.truthy, h]

/-- C10: the token regex `\d+\.?\d*` cannot cross a comma, so `"1,200"`
splits into the tokens `1` and `200`: `normalize_rent_amount` keeps the
first fragment and `normalize_maintenance_amount` sums the fragments. -/
theorem comma_splits_amount_tokens :
    numTokens ("1,200".toList) = [['1'], ['2', '0', '0']] ∧
    normalize_rent_amount "1,200" = "1" ∧
    normalize_maintenance_amount "1,200" = "201" := by decide
